import Mathlib

/-!
Verification of the kickstart-ai generation core (`src/core.py`,
`src/backend/openai_backend.py`, `src/backend/hf_backend.py`).

The Python code is shallowly embedded: every pure decision (credential
resolution, backend priority, the HuggingFace local/remote fallback, the
JSON-output normalization and its error messages) is translated into an
executable Lean definition.  Effects of the outside world — the process
environment, importability of optional packages, whether the local model
loads, and what each provider call returns — are passed in explicitly as
data (functions/oracles), so each Python control path corresponds to a
Lean case split.  Call traces (which provider capabilities were invoked,
with which arguments, and which environment variables were read) are
returned alongside results so that "no network call", "exactly one
retry" and "no environment re-read" become provable statements.
-/

/-- Python truthiness of an optional string value: `None` and `""` are
falsy, every other string is truthy. -/
def pyTruthy : Option String → Bool
  | none => false
  | some s => !s.isEmpty

/-- Python `a or b` on optional strings (`b` used when `a` is falsy),
as in `api_key or os.getenv("OPENAI_API_KEY")`. -/
def pyOr (a b : Option String) : Option String :=
  if pyTruthy a then a else b

/-- Python `a or b` where `b` is a plain string default, as in
`model_id or LOCAL_MODEL` and `output_dir or self.output_dir`. -/
def pyOrD (a : Option String) (b : String) : String :=
  match a with
  | some s => if s.isEmpty then b else s
  | none => b

/-- The process environment (`os.getenv`): a map from variable name to
its value, `none` when unset. -/
def PyEnv : Type := String → Option String

/-- Python `s[:n]` on a string: the first `n` characters. -/
def pySlice (s : String) (n : Nat) : String :=
  ⟨s.data.take n⟩

/-- Exceptions raised by the embedded code, by Python class. -/
inductive PyError
  | runtimeError (msg : String)
  | importError (msg : String)
  | valueError (msg : String)
  | providerError (msg : String)

/-- A JSON value as produced by the Python `json.loads` function (numbers are
modelled as integers; no claim depends on numeric content). -/
inductive JValue
  | jnull
  | jbool (b : Bool)
  | jnum (n : Int)
  | jstr (s : String)
  | jarr (xs : List JValue)
  | jobj (kvs : List (String × JValue))

/-- Python `repr` of a JSON-decoded value (quote-escaping subtleties of
`repr` on strings are not modelled; no claim depends on the repr text). -/
def pyRepr : JValue → String
  | .jnull => "None"
  | .jbool b => if b then "True" else "False"
  | .jnum n => toString n
  | .jstr s => "\x27" ++ s ++ "\x27"
  | .jarr xs => "[" ++ String.intercalate ", " (xs.attach.map (fun x => pyRepr x.1)) ++ "]"
  | .jobj kvs =>
      "\x7b" ++
        String.intercalate ", "
          (kvs.attach.map (fun kv => "\x27" ++ kv.1.1 ++ "\x27: " ++ pyRepr kv.1.2)) ++
      "\x7d"
decreasing_by
  · simp_wf
    have := List.sizeOf_lt_of_mem x.2
    omega
  · simp_wf
    obtain ⟨⟨k, v⟩, hm⟩ := kv
    have := List.sizeOf_lt_of_mem hm
    simp at this ⊢
    omega

/-- Python `str` of a JSON-decoded value, as used by the coercion
`str(v)` in the OpenAI backend: strings map to themselves, everything
else to its repr. -/
def pyStr : JValue → String
  | .jstr s => s
  | v => pyRepr v

/-- Does the JSON value satisfy the FileTree contract: an object all of
whose values are strings? -/
def isStrFileTree : JValue → Bool
  | .jobj kvs => kvs.all (fun kv => match kv.2 with | .jstr _ => true | _ => false)
  | _ => false

/-- Is `needle` a prefix of the list? -/
def charPrefix : List Char → List Char → Bool
  | [], _ => true
  | _ :: _, [] => false
  | n :: ns, h :: hs => (n == h) && charPrefix ns hs

/-- Does `needle` occur contiguously inside the list? -/
def charInfix (needle : List Char) : List Char → Bool
  | [] => charPrefix needle []
  | h :: hs => charPrefix needle (h :: hs) || charInfix needle hs

/-- Substring test: does `hay` contain `needle`? -/
def strContains (hay needle : String) : Bool :=
  charInfix needle.data hay.data

/-- A chat message, as in the `messages=[{"role": ..., "content": ...}]`
arguments of the provider calls. -/
structure Msg where
  role : String
  content : String

/-- The value returned by the hosted `text_generation` call: either a
plain string or a dict-like response (its optional `generated_text`
field, and its `str(resp)` rendering used as the fallback). -/
inductive TGResp
  | asStr (s : String)
  | asDict (generated_text : Option String) (reprS : String)

/-- `hf_backend.py` lines 84-86: a string response is returned as is;
otherwise `resp.get("generated_text", str(resp))`. -/
def tgRespText : TGResp → String
  | .asStr s => s
  | .asDict (some g) _ => g
  | .asDict none r => r

/-! ## OpenAI backend (`src/backend/openai_backend.py`) -/

/-- The state of a constructed `OpenAIBackend` (the provider client is
opaque; calls to it are oracles of `generate_project`). -/
structure OpenAIBackend where
  api_key : String

/-- `OpenAIBackend.__init__`: raises `ImportError` when the `openai`
package is absent (`OpenAI is None`), else stores the client. -/
def OpenAIBackend.init (hasOpenAI : Bool) (api_key : String) :
    Except PyError OpenAIBackend :=
  if hasOpenAI then .ok { api_key := api_key }
  else .error (.importError "openai package is required for OpenAIBackend")

/-- The fixed system instruction of the OpenAI chat call. -/
def OPENAI_SYSTEM_MSG : String :=
  "You are a code scaffolding engine that outputs JSON only."

/-- `openai_backend.py` line 34: `f"OpenAI backend returned non-JSON
output: {e}: {raw[:200]}"`. -/
def openaiParseErrMsg (e raw : String) : String :=
  "OpenAI backend returned non-JSON output: " ++ e ++ ": " ++ pySlice raw 200

/-- `OpenAIBackend.generate_project(meta_prompt, metadata)`.  The chat
completion call and `json.loads` are the outside world, passed as
oracles: `chat` maps the message list to the content of
`completion.choices[0].message.content` (or a provider failure), and
`jsonLoads` maps a raw string to its parse result.  Returns the result
together with the list of chat calls made. -/
def OpenAIBackend.generate_project {α : Type} (_b : OpenAIBackend)
    (meta_prompt : String) (_metadata : α)
    (chat : List Msg → Except String String)
    (jsonLoads : String → Except String JValue) :
    Except PyError JValue × List (List Msg) :=
  let msgs : List Msg := [⟨"system", OPENAI_SYSTEM_MSG⟩, ⟨"user", meta_prompt⟩]
  match chat msgs with
  | .error e => (.error (.providerError e), [msgs])
  | .ok raw =>
    match jsonLoads raw with
    | .error e => (.error (.valueError (openaiParseErrMsg e raw)), [msgs])
    | .ok (.jobj kvs) =>
        (.ok (.jobj (kvs.map (fun kv => (kv.1, .jstr (pyStr kv.2))))), [msgs])
    | .ok _ =>
        (.error (.valueError "Expected JSON object mapping file paths to contents"), [msgs])

/-! ## HuggingFace backend (`src/backend/hf_backend.py`) -/

/-- `hf_backend.py` line 15. -/
def LOCAL_MODEL : String := "microsoft/Phi-3-mini-4k-instruct"

/-- The state of a constructed `HuggingFaceBackend`: whether
`self.local_pipeline` / `self.client` are set (the objects themselves
are opaque; calls to them are oracles of `generate_project`). -/
structure HFBackend where
  model_id : String
  hf_token : Option String
  local_pipeline : Bool
  client : Bool

/-- `hf_backend.py` lines 58-62: the `RuntimeError` message raised when
local loading fails and no remote fallback is available. -/
def hfInitErrMsg (model_id : String) : String :=
  "Could not load local model \x27" ++ model_id ++ "\x27.\n" ++
  "Install it via:  transformers, accelerate, bitsandbytes\n" ++
  "Or set HUGGINGFACE_TOKEN for API fallback."

/-- Observable side effects of constructing a backend: how many
`os.getenv` reads happened, whether a remote `InferenceClient` was
constructed, and what was printed. -/
structure InitTrace where
  envReads : Nat
  clientConstructed : Bool
  logs : List String

/-- `HuggingFaceBackend.__init__(hf_token, model_id)`.  The outside
world enters as data: `env` is the process environment, `hasClient`
whether `huggingface_hub.InferenceClient` imported (`is not None`), and
`localLoad` the outcome of `transformers.pipeline(...)` (`.error e`
carries `str(e)` of the raised exception).  Device/precision selection
(the `torch_dtype` line) has no observable effect and is not modelled. -/
def hfInit (hf_token : Option String) (model_id : Option String) (env : PyEnv)
    (hasClient : Bool) (localLoad : Except String Unit) :
    Except PyError HFBackend × InitTrace :=
  let mid := pyOrD model_id LOCAL_MODEL
  let tokenEnvReads : Nat := if pyTruthy hf_token then 0 else 1
  let tok := pyOr hf_token (env "HUGGINGFACE_TOKEN")
  let log0 := "[Autoforge] Loading local model: " ++ mid
  match localLoad with
  | .ok _ =>
      (.ok { model_id := mid, hf_token := tok, local_pipeline := true, client := false },
       { envReads := tokenEnvReads, clientConstructed := false,
         logs := [log0, "[Autoforge] Local model loaded successfully."] })
  | .error e =>
      let logf := "[Autoforge] Local model failed to load: " ++ e
      if pyTruthy tok && hasClient then
        (.ok { model_id := mid, hf_token := tok, local_pipeline := false, client := true },
         { envReads := tokenEnvReads, clientConstructed := true,
           logs := [log0, logf, "[Autoforge] Falling back to HuggingFace Inference API."] })
      else
        (.error (.runtimeError (hfInitErrMsg mid)),
         { envReads := tokenEnvReads, clientConstructed := false, logs := [log0, logf] })

/-- `HuggingFaceBackend._run_local`: one local pipeline call; the
oracle yields `out[0]["generated_text"]` or the raised exception. -/
def run_local (prompt : String) (localGen : String → Except String String) :
    Except PyError String × List String :=
  match localGen prompt with
  | .ok s => (.ok s, [prompt])
  | .error e => (.error (.providerError e), [prompt])

/-- `HuggingFaceBackend._run_hf`: one `text_generation` call; on any
exception, one `chat_completion` call with a single user message, whose
own failure propagates (the first error is not re-raised).  Returns the
result together with the `text_generation` prompts used and the
`chat_completion` message lists used. -/
def run_hf (prompt : String) (tg : String → Except String TGResp)
    (cc : List Msg → Except String String) :
    Except PyError String × List String × List (List Msg) :=
  match tg prompt with
  | .ok resp => (.ok (tgRespText resp), [prompt], [])
  | .error _ =>
    let msgs : List Msg := [⟨"user", prompt⟩]
    match cc msgs with
    | .ok c => (.ok c, [prompt], [msgs])
    | .error e2 => (.error (.providerError e2), [prompt], [msgs])

/-- `hf_backend.py` lines 112-115: the `ValueError` message for invalid
JSON output. -/
def hfParseErrMsg (e raw : String) : String :=
  "Model did not return valid JSON.\nError: " ++ e ++ "\n\nRaw output:\n" ++
  pySlice raw 400 ++ "..."

/-- `hf_backend.py` lines 109-115: `json.loads(raw)` wrapped into the
error message of the backend; the parsed value is returned unchanged. -/
def hfParse (jsonLoads : String → Except String JValue) (raw : String) :
    Except PyError JValue :=
  match jsonLoads raw with
  | .ok v => .ok v
  | .error e => .error (.valueError (hfParseErrMsg e raw))

/-- Trace of provider calls made by one `generate_project` call. -/
structure GenTrace where
  localCalls : List String
  tgCalls : List String
  ccCalls : List (List Msg)

/-- `HuggingFaceBackend.generate_project(meta_prompt, metadata)`:
local path when `self.local_pipeline is not None`, else the remote
path, then JSON parsing. -/
def HFBackend.generate_project {α : Type} (b : HFBackend)
    (meta_prompt : String) (_metadata : α)
    (localGen : String → Except String String)
    (tg : String → Except String TGResp)
    (cc : List Msg → Except String String)
    (jsonLoads : String → Except String JValue) :
    Except PyError JValue × GenTrace :=
  if b.local_pipeline then
    match run_local meta_prompt localGen with
    | (.error er, lc) => (.error er, ⟨lc, [], []⟩)
    | (.ok raw, lc) => (hfParse jsonLoads raw, ⟨lc, [], []⟩)
  else
    match run_hf meta_prompt tg cc with
    | (.error er, tgs, ccs) => (.error er, ⟨[], tgs, ccs⟩)
    | (.ok raw, tgs, ccs) => (hfParse jsonLoads raw, ⟨[], tgs, ccs⟩)

/-! ## Orchestrator (`src/core.py`) -/

/-- The state of a constructed `LiftOff` instance. -/
structure LiftOffCfg where
  api_key : Option String
  hf_token : Option String
  output_dir : String

/-- The default value of the `output_dir` parameter of `LiftOff.__init__`. -/
def DEFAULT_OUTPUT_DIR : String := "liftoff_output"

/-- `LiftOff.__init__`: each credential is the argument when truthy,
else the named environment variable (`os.getenv` short-circuits away
when the argument is truthy).  Returns the state and the number of
`os.getenv` reads performed. -/
def liftoffInit (api_key hf_token : Option String) (output_dir : String)
    (env : PyEnv) : LiftOffCfg × Nat :=
  ({ api_key := pyOr api_key (env "OPENAI_API_KEY"),
     hf_token := pyOr hf_token (env "HUGGINGFACE_TOKEN"),
     output_dir := output_dir },
   (if pyTruthy api_key then 0 else 1) + (if pyTruthy hf_token then 0 else 1))

/-- The chosen backend, as returned by `LiftOff._choose_backend`. -/
inductive Backend
  | openaiB (b : OpenAIBackend)
  | hfB (b : HFBackend)

/-- `core.py` lines 155-158: the `RuntimeError` message when neither
credential is available. -/
def noBackendMsg : String :=
  "No available backend.\n\nSet OPENAI_API_KEY or HUGGINGFACE_TOKEN."

/-- `LiftOff._choose_backend(metadata)`: OpenAI when the key is truthy,
else HuggingFace when the token is truthy (running the HF fallback
cascade at construction), else `RuntimeError`.  The metadata argument
is taken but, as in the source, never used.  The trace records the
construction side effects (environment reads, client construction). -/
def choose_backend {α : Type} (cfg : LiftOffCfg) (_metadata : α) (env : PyEnv)
    (hasOpenAI hasClient : Bool) (localLoad : Except String Unit) :
    Except PyError Backend × InitTrace :=
  if pyTruthy cfg.api_key then
    (match OpenAIBackend.init hasOpenAI (cfg.api_key.getD "") with
     | .ok b => .ok (.openaiB b)
     | .error e => .error e,
     { envReads := 0, clientConstructed := false,
       logs := ["[LiftOff] Using OpenAI backend."] })
  else if pyTruthy cfg.hf_token then
    match hfInit cfg.hf_token none env hasClient localLoad with
    | (.ok b, t) =>
        (.ok (.hfB b),
         { t with logs := "[LiftOff] Using HuggingFace Inference API backend." :: t.logs })
    | (.error e, t) =>
        (.error e,
         { t with logs := "[LiftOff] Using HuggingFace Inference API backend." :: t.logs })
  else
    (.error (.runtimeError noBackendMsg),
     { envReads := 0, clientConstructed := false, logs := [] })

/-- The external collaborators and provider behaviors consumed by one
`create` call, passed as oracles: `parse_intent` and
`build_meta_prompt` are the external pure functions of §6; the rest
drive the backends as in their own definitions. -/
structure Oracles (α : Type) where
  parse_intent : String → α
  build_meta_prompt : String → α → String
  hasOpenAI : Bool
  hasClient : Bool
  localLoad : Except String Unit
  chat : List Msg → Except String String
  localGen : String → Except String String
  tg : String → Except String TGResp
  cc : List Msg → Except String String
  jsonLoads : String → Except String JValue

/-- Dispatch of `backend.generate_project(meta_prompt, metadata)` on
the chosen backend. -/
def Backend.generate {α : Type} (bk : Backend) (meta_prompt : String)
    (metadata : α) (O : Oracles α) : Except PyError JValue :=
  match bk with
  | .openaiB b => (b.generate_project meta_prompt metadata O.chat O.jsonLoads).1
  | .hfB b => (b.generate_project meta_prompt metadata O.localGen O.tg O.cc O.jsonLoads).1

/-- The materialization request passed to `write_file_tree`. -/
structure WriteCall where
  tree : JValue
  root : String

/-- Outcome of one `LiftOff.create` call: the write request (or the
fatal error), the environment reads performed during the call, and the
validator issues reported. -/
structure CreateResult where
  res : Except PyError WriteCall
  envReads : Nat
  reported : List String

/-- `LiftOff.create(prompt, output_dir)`: parse intent, choose backend,
build the meta-prompt, generate, validate (advisory: issues only
printed), pick the output directory, write.  The validator is the
external `validate_file_tree` collaborator. -/
def create {α : Type} (cfg : LiftOffCfg) (prompt : String)
    (output_dir : Option String) (env : PyEnv) (O : Oracles α)
    (validate_file_tree : JValue → List String) : CreateResult :=
  let metadata := O.parse_intent prompt
  match choose_backend cfg metadata env O.hasOpenAI O.hasClient O.localLoad with
  | (.error e, t) => { res := .error e, envReads := t.envReads, reported := [] }
  | (.ok bk, t) =>
    let meta_prompt := O.build_meta_prompt prompt metadata
    match bk.generate meta_prompt metadata O with
    | .error e => { res := .error e, envReads := t.envReads, reported := [] }
    | .ok file_tree =>
      let issues := validate_file_tree file_tree
      let root := pyOrD output_dir cfg.output_dir
      { res := .ok { tree := file_tree, root := root },
        envReads := t.envReads, reported := issues }

/-- Is the JSON value a top-level object? -/
def isJObj : JValue → Bool
  | .jobj _ => true
  | _ => false

example : strContains "hello world" "lo w" = true := by decide

example : strContains "hello world" "xyz" = false := by decide

example : pyStr (.jstr "a") = "a" := rfl

theorem charPrefix_append_self (n t : List Char) : charPrefix n (n ++ t) = true := by
  induction n with
  | nil => rfl
  | cons a as ih => simp [charPrefix, ih]

theorem charInfix_of_charPrefix (n l : List Char) (h : charPrefix n l = true) :
    charInfix n l = true := by
  cases l with
  | nil => exact h
  | cons x xs => simp [charInfix, h]

theorem charInfix_append_left (n : List Char) (p : List Char) (l : List Char)
    (h : charInfix n l = true) : charInfix n (p ++ l) = true := by
  induction p with
  | nil => exact h
  | cons x xs ih => simp [charInfix, ih]

/-- When the characters of `hay` decompose as `p ++ m ++ q`, `hay`
contains `m`. -/
theorem strContains_of_decomp (hay p m q : String)
    (hd : hay.data = p.data ++ m.data ++ q.data) : strContains hay m = true := by
  unfold strContains
  rw [hd, List.append_assoc]
  exact charInfix_append_left _ _ _
    (charInfix_of_charPrefix _ _ (charPrefix_append_self _ _))

theorem pySlice_length_le (s : String) (n : Nat) : (pySlice s n).length ≤ n := by
  show (s.data.take n).length ≤ n
  rw [List.length_take]
  exact min_le_left _ _

theorem empty_isEmpty : ("" : String).isEmpty = true := rfl

theorem pyTruthy_some_empty : pyTruthy (some "") = false := rfl

/-- Claim C1: backend selection is deterministic and follows the fixed
priority: a truthy API key selects the OpenAI backend regardless of the
token; otherwise a truthy token selects the HuggingFace backend (its
construction outcome is the selection outcome); otherwise selection
fails with a `RuntimeError` naming both credential variables and the
remediation. -/
theorem backend_selection_priority {α : Type} (cfg : LiftOffCfg) (md : α)
    (env : PyEnv) (hasOpenAI hasClient : Bool) (localLoad : Except String Unit) :
    (pyTruthy cfg.api_key = true → hasOpenAI = true →
      (choose_backend cfg md env hasOpenAI hasClient localLoad).1
        = .ok (.openaiB { api_key := cfg.api_key.getD "" })) ∧
    (pyTruthy cfg.api_key = false → pyTruthy cfg.hf_token = true →
      ∀ b, (hfInit cfg.hf_token none env hasClient localLoad).1 = .ok b →
        (choose_backend cfg md env hasOpenAI hasClient localLoad).1 = .ok (.hfB b)) ∧
    (pyTruthy cfg.api_key = false → pyTruthy cfg.hf_token = false →
      (choose_backend cfg md env hasOpenAI hasClient localLoad).1
          = .error (.runtimeError noBackendMsg) ∧
      strContains noBackendMsg "OPENAI_API_KEY" = true ∧
      strContains noBackendMsg "HUGGINGFACE_TOKEN" = true ∧
      strContains noBackendMsg "Set " = true) := by
  refine ⟨fun hk ho => ?_, fun hk ht b hb => ?_, fun hk ht => ?_⟩
  · simp [choose_backend, hk, OpenAIBackend.init, ho]
  · rcases hh : hfInit cfg.hf_token none env hasClient localLoad with ⟨r, t⟩
    rw [hh] at hb
    simp only at hb
    subst hb
    simp [choose_backend, hk, ht, hh]
  · refine ⟨by simp [choose_backend, hk, ht], by decide, by decide, by decide⟩

/-- Witness for C1 at concrete credential sets: both credentials
present selects OpenAI; neither present fails with the configuration
message. -/
theorem backend_selection_priority_witness :
    (choose_backend { api_key := some "k", hf_token := some "t", output_dir := "o" }
        (0 : Nat) (fun _ => none) true true (.ok ())).1
      = .ok (.openaiB { api_key := "k" }) ∧
    (choose_backend { api_key := none, hf_token := none, output_dir := "o" }
        (0 : Nat) (fun _ => none) true true (.ok ())).1
      = .error (.runtimeError noBackendMsg) :=
  ⟨(backend_selection_priority { api_key := some "k", hf_token := some "t", output_dir := "o" }
      0 (fun _ => none) true true (.ok ())).1 rfl rfl,
   ((backend_selection_priority { api_key := none, hf_token := none, output_dir := "o" }
      0 (fun _ => none) true true (.ok ())).2.2 rfl rfl).1⟩

/-- Claim C9: neither backend selection nor any generate call of the
`generate_project` reads the metadata argument — with all other inputs
fixed, any two metadata values give identical backend choices and
identical generation results. -/
theorem metadata_noninterference {α : Type} (cfg : LiftOffCfg) (env : PyEnv)
    (hasOpenAI hasClient : Bool) (localLoad : Except String Unit) (md md' : α)
    (ob : OpenAIBackend) (hb : HFBackend) (mp : String)
    (chat : List Msg → Except String String)
    (localGen : String → Except String String)
    (tg : String → Except String TGResp)
    (cc : List Msg → Except String String)
    (jsonLoads : String → Except String JValue) :
    choose_backend cfg md env hasOpenAI hasClient localLoad
      = choose_backend cfg md' env hasOpenAI hasClient localLoad ∧
    ob.generate_project mp md chat jsonLoads
      = ob.generate_project mp md' chat jsonLoads ∧
    hb.generate_project mp md localGen tg cc jsonLoads
      = hb.generate_project mp md' localGen tg cc jsonLoads :=
  ⟨rfl, rfl, rfl⟩

/-- Claim C10: an empty-string credential argument is treated as
absent: construction falls back to the environment variable, and when
that is also empty or unset, backend selection behaves exactly as if
the credential were `None`. -/
theorem empty_credential_as_absent {α : Type} (a h : Option String) (d : String)
    (env : PyEnv) (md : α) (hasOpenAI hasClient : Bool)
    (localLoad : Except String Unit)
    (hk : env "OPENAI_API_KEY" = none ∨ env "OPENAI_API_KEY" = some "")
    (ht : env "HUGGINGFACE_TOKEN" = none ∨ env "HUGGINGFACE_TOKEN" = some "") :
    ((liftoffInit (some "") h d env).1.api_key = env "OPENAI_API_KEY") ∧
    ((liftoffInit a (some "") d env).1.hf_token = env "HUGGINGFACE_TOKEN") ∧
    (choose_backend (liftoffInit (some "") h d env).1 md env hasOpenAI hasClient localLoad
      = choose_backend { (liftoffInit (some "") h d env).1 with api_key := none }
          md env hasOpenAI hasClient localLoad) ∧
    (choose_backend (liftoffInit a (some "") d env).1 md env hasOpenAI hasClient localLoad
      = choose_backend { (liftoffInit a (some "") d env).1 with hf_token := none }
          md env hasOpenAI hasClient localLoad) := by
  refine ⟨by simp [liftoffInit, pyOr, pyTruthy_some_empty],
    by simp [liftoffInit, pyOr, pyTruthy_some_empty], ?_, ?_⟩
  · rcases hk with hk | hk <;>
      simp [liftoffInit, choose_backend, pyOr, pyTruthy, pyTruthy_some_empty,
        empty_isEmpty, hk]
  · rcases ht with ht | ht <;>
      simp [liftoffInit, choose_backend, pyOr, pyTruthy, pyTruthy_some_empty,
        empty_isEmpty, ht]

/-- Witness for C10: with `api_key=""`, `hf_token=""` and an empty
environment, selection fails exactly as with no credentials at all. -/
theorem empty_credential_as_absent_witness :
    ((liftoffInit (some "") (some "") "o" (fun _ => none)).1.api_key = none) ∧
    (choose_backend (liftoffInit (some "") (some "") "o" (fun _ => none)).1 (0 : Nat)
        (fun _ => none) true true (.ok ())
      = choose_backend
          { (liftoffInit (some "") (some "") "o" (fun _ => none)).1 with api_key := none }
          (0 : Nat) (fun _ => none) true true (.ok ())) :=
  ⟨(empty_credential_as_absent (some "") (some "") "o" (fun _ => none) (0 : Nat)
      true true (.ok ()) (Or.inl rfl) (Or.inl rfl)).1,
   (empty_credential_as_absent (some "") (some "") "o" (fun _ => none) (0 : Nat)
      true true (.ok ()) (Or.inl rfl) (Or.inl rfl)).2.2.1⟩

/-- With a truthy token argument, `HuggingFaceBackend.__init__` never
consults the environment (the Python `or` short-circuits): its result is
the same under any two environments and it performs zero reads. -/
theorem hfInit_env_indep (tok mid : Option String) (env1 env2 : PyEnv)
    (hasClient : Bool) (localLoad : Except String Unit)
    (htok : pyTruthy tok = true) :
    hfInit tok mid env1 hasClient localLoad = hfInit tok mid env2 hasClient localLoad ∧
    (hfInit tok mid env1 hasClient localLoad).2.envReads = 0 := by
  constructor
  · simp [hfInit, pyOr, htok]
  · cases localLoad <;> cases hasClient <;> simp [hfInit, pyOr, htok]

/-- `_choose_backend` never consults the environment: its result is the
same under any two environments and its trace records zero reads. -/
theorem choose_backend_env_indep {α : Type} (cfg : LiftOffCfg) (md : α)
    (env1 env2 : PyEnv) (hasOpenAI hasClient : Bool)
    (localLoad : Except String Unit) :
    choose_backend cfg md env1 hasOpenAI hasClient localLoad
      = choose_backend cfg md env2 hasOpenAI hasClient localLoad ∧
    (choose_backend cfg md env1 hasOpenAI hasClient localLoad).2.envReads = 0 := by
  by_cases hk : pyTruthy cfg.api_key = true
  · constructor <;> simp [choose_backend, hk]
  · rw [Bool.not_eq_true] at hk
    by_cases ht : pyTruthy cfg.hf_token = true
    · have hind := hfInit_env_indep cfg.hf_token none env1 env2 hasClient localLoad ht
      rcases hh : hfInit cfg.hf_token none env1 hasClient localLoad with ⟨r, t⟩
      have ht0 : t.envReads = 0 := by rw [hh] at hind; exact hind.2
      constructor
      · unfold choose_backend
        rw [hind.1]
      · unfold choose_backend
        rw [hh]
        cases r <;> simp [hk, ht, ht0]
    · rw [Bool.not_eq_true] at ht
      constructor <;> simp [choose_backend, hk, ht]

/-- Claim C8: both credentials are resolved exactly once, at `LiftOff`
construction, with a truthy argument taking precedence over the named
environment variable; during a `create` request no component re-reads
the environment — the whole call is invariant under changing the
environment it would see, and its trace counts zero reads. -/
theorem credentials_resolved_once {α : Type} (a h : Option String) (d : String)
    (env env1 env2 : PyEnv) (cfg : LiftOffCfg) (prompt : String)
    (od : Option String) (O : Oracles α) (v : JValue → List String) :
    (pyTruthy a = true → (liftoffInit a h d env).1.api_key = a) ∧
    (pyTruthy a = false → (liftoffInit a h d env).1.api_key = env "OPENAI_API_KEY") ∧
    (pyTruthy h = true → (liftoffInit a h d env).1.hf_token = h) ∧
    (pyTruthy h = false → (liftoffInit a h d env).1.hf_token = env "HUGGINGFACE_TOKEN") ∧
    (create cfg prompt od env1 O v = create cfg prompt od env2 O v) ∧
    ((create cfg prompt od env1 O v).envReads = 0) := by
  refine ⟨fun hk => by simp [liftoffInit, pyOr, hk],
    fun hk => by simp [liftoffInit, pyOr, hk],
    fun ht => by simp [liftoffInit, pyOr, ht],
    fun ht => by simp [liftoffInit, pyOr, ht], ?_, ?_⟩
  · have hc := choose_backend_env_indep cfg (O.parse_intent prompt) env1 env2
      O.hasOpenAI O.hasClient O.localLoad
    show create cfg prompt od env1 O v = create cfg prompt od env2 O v
    unfold create
    simp only []
    rw [hc.1]
  · have hc := choose_backend_env_indep cfg (O.parse_intent prompt) env1 env1
      O.hasOpenAI O.hasClient O.localLoad
    unfold create
    simp only []
    rcases hh : choose_backend cfg (O.parse_intent prompt) env1 O.hasOpenAI
        O.hasClient O.localLoad with ⟨r, t⟩
    have ht0 : t.envReads = 0 := by rw [hh] at hc; exact hc.2
    cases r with
    | error e => simp [ht0]
    | ok bk =>
      cases hg : bk.generate (O.build_meta_prompt prompt (O.parse_intent prompt))
          (O.parse_intent prompt) O <;> simp [hg, ht0]

/-- Witness for C8: a truthy argument wins over the environment, a
falsy one falls back to it, and a concrete `create` run under two
different environments is identical with zero reads. -/
theorem credentials_resolved_once_witness :
    ((liftoffInit (some "k") none "o" (fun _ => some "envk")).1.api_key = some "k") ∧
    ((liftoffInit none none "o" (fun _ => some "envk")).1.api_key = some "envk") ∧
    (create ⟨some "k", none, "o"⟩ "p" none (fun _ => some "e1")
        ⟨fun _ => (0 : Nat), fun _ _ => "mp", true, true, .ok (),
         fun _ => .ok "raw", fun _ => .error "x", fun _ => .error "x",
         fun _ => .error "x", fun _ => .ok (.jobj [("main.py", .jstr "pass")])⟩
        (fun _ => [])
      = create ⟨some "k", none, "o"⟩ "p" none (fun _ => none)
        ⟨fun _ => (0 : Nat), fun _ _ => "mp", true, true, .ok (),
         fun _ => .ok "raw", fun _ => .error "x", fun _ => .error "x",
         fun _ => .error "x", fun _ => .ok (.jobj [("main.py", .jstr "pass")])⟩
        (fun _ => [])) :=
  ⟨(credentials_resolved_once (some "k") none "o" (fun _ => some "envk")
      (fun _ => none) (fun _ => none) ⟨none, none, "o"⟩ "p" none
      ⟨fun _ => (0 : Nat), fun _ _ => "mp", true, true, .ok (), fun _ => .ok "raw",
       fun _ => .error "x", fun _ => .error "x", fun _ => .error "x",
       fun _ => .ok .jnull⟩ (fun _ => [])).1 rfl,
   (credentials_resolved_once none none "o" (fun _ => some "envk")
      (fun _ => none) (fun _ => none) ⟨none, none, "o"⟩ "p" none
      ⟨fun _ => (0 : Nat), fun _ _ => "mp", true, true, .ok (), fun _ => .ok "raw",
       fun _ => .error "x", fun _ => .error "x", fun _ => .error "x",
       fun _ => .ok .jnull⟩ (fun _ => [])).2.1 rfl,
   (credentials_resolved_once (some "k") none "o" (fun _ => none)
      (fun _ => some "e1") (fun _ => none) ⟨some "k", none, "o"⟩ "p" none
      ⟨fun _ => (0 : Nat), fun _ _ => "mp", true, true, .ok (), fun _ => .ok "raw",
       fun _ => .error "x", fun _ => .error "x", fun _ => .error "x",
       fun _ => .ok (.jobj [("main.py", .jstr "pass")])⟩ (fun _ => [])).2.2.2.2.1⟩

/-- Claim C7: `create` never aborts because of validator issues — its
result (success/failure and the write request) is the same under any
two validators; on success the issues of the generated tree are
reported, and the tree handed to materialization is exactly the tree
the chosen backend returned. -/
theorem validator_advisory {α : Type} (cfg : LiftOffCfg) (prompt : String)
    (od : Option String) (env : PyEnv) (O : Oracles α)
    (v v2 : JValue → List String) :
    ((create cfg prompt od env O v).res = (create cfg prompt od env O v2).res) ∧
    (∀ w, (create cfg prompt od env O v).res = .ok w →
      (create cfg prompt od env O v).reported = v w.tree ∧
      ∃ bk, (choose_backend cfg (O.parse_intent prompt) env O.hasOpenAI
               O.hasClient O.localLoad).1 = .ok bk ∧
        bk.generate (O.build_meta_prompt prompt (O.parse_intent prompt))
          (O.parse_intent prompt) O = .ok w.tree) := by
  unfold create
  simp only []
  rcases hh : choose_backend cfg (O.parse_intent prompt) env O.hasOpenAI
      O.hasClient O.localLoad with ⟨r, t⟩
  cases r with
  | error e => exact ⟨rfl, fun w hw => by simp at hw⟩
  | ok bk =>
    dsimp only []
    cases hg : bk.generate (O.build_meta_prompt prompt (O.parse_intent prompt))
        (O.parse_intent prompt) O with
    | error e => exact ⟨rfl, fun w hw => by simp at hw⟩
    | ok tree =>
      refine ⟨rfl, fun w hw => ?_⟩
      simp only [Except.ok.injEq] at hw
      subst hw
      exact ⟨rfl, bk, rfl, hg⟩

/-- Witness for C7: a concrete run with a warning-producing validator
writes the same tree as one with a silent validator, and reports the
warning. -/
theorem validator_advisory_witness :
    ((create ⟨some "k", none, "out"⟩ "p" none (fun _ => none)
        ⟨fun _ => (0 : Nat), fun _ _ => "mp", true, true, .ok (),
         fun _ => .ok "raw", fun _ => .error "x", fun _ => .error "x",
         fun _ => .error "x", fun _ => .ok (.jobj [("main.py", .jstr "pass")])⟩
        (fun _ => ["warning: no tests"])).res
      = (create ⟨some "k", none, "out"⟩ "p" none (fun _ => none)
        ⟨fun _ => (0 : Nat), fun _ _ => "mp", true, true, .ok (),
         fun _ => .ok "raw", fun _ => .error "x", fun _ => .error "x",
         fun _ => .error "x", fun _ => .ok (.jobj [("main.py", .jstr "pass")])⟩
        (fun _ => [])).res) ∧
    ((create ⟨some "k", none, "out"⟩ "p" none (fun _ => none)
        ⟨fun _ => (0 : Nat), fun _ _ => "mp", true, true, .ok (),
         fun _ => .ok "raw", fun _ => .error "x", fun _ => .error "x",
         fun _ => .error "x", fun _ => .ok (.jobj [("main.py", .jstr "pass")])⟩
        (fun _ => ["warning: no tests"])).reported = ["warning: no tests"]) :=
  ⟨(validator_advisory ⟨some "k", none, "out"⟩ "p" none (fun _ => none)
      ⟨fun _ => (0 : Nat), fun _ _ => "mp", true, true, .ok (),
       fun _ => .ok "raw", fun _ => .error "x", fun _ => .error "x",
       fun _ => .error "x", fun _ => .ok (.jobj [("main.py", .jstr "pass")])⟩
      (fun _ => ["warning: no tests"]) (fun _ => [])).1,
   ((validator_advisory ⟨some "k", none, "out"⟩ "p" none (fun _ => none)
      ⟨fun _ => (0 : Nat), fun _ _ => "mp", true, true, .ok (),
       fun _ => .ok "raw", fun _ => .error "x", fun _ => .error "x",
       fun _ => .error "x", fun _ => .ok (.jobj [("main.py", .jstr "pass")])⟩
      (fun _ => ["warning: no tests"]) (fun _ => [])).2
      ⟨.jobj [("main.py", .jstr "pass")], "out"⟩ rfl).1⟩

/-- Counterexample to claim C2: with no token, a remote client available, and a
local failure whose cause is "EC1", construction raises — but the
raised message does not contain the cause "EC1" (it is only printed),
so the claim that the message names the local failure cause is false. -/
theorem hf_init_msg_omits_cause :
    (hfInit none none (fun _ => none) true (.error "EC1")).1
      = .error (.runtimeError (hfInitErrMsg LOCAL_MODEL)) ∧
    strContains (hfInitErrMsg LOCAL_MODEL) "EC1" = false := by
  exact ⟨rfl, by decide⟩

/-- Claim C2 (amended): when local loading fails and no remote fallback
is available (token falsy or no remote-client capability), construction
raises a fatal `RuntimeError` whose message names the model identifier
and the remediation (set `HUGGINGFACE_TOKEN`); the local failure cause
is printed but not included in the message; and no remote client is
constructed, so no network call is attempted. -/
theorem hf_init_no_fallback_fatal (tok mid : Option String) (env : PyEnv)
    (hasClient : Bool) (cause : String)
    (hno : (pyTruthy (pyOr tok (env "HUGGINGFACE_TOKEN")) && hasClient) = false) :
    (hfInit tok mid env hasClient (.error cause)).1
      = .error (.runtimeError (hfInitErrMsg (pyOrD mid LOCAL_MODEL))) ∧
    (hfInit tok mid env hasClient (.error cause)).2.clientConstructed = false ∧
    strContains (hfInitErrMsg (pyOrD mid LOCAL_MODEL)) (pyOrD mid LOCAL_MODEL) = true ∧
    strContains (hfInitErrMsg (pyOrD mid LOCAL_MODEL)) "HUGGINGFACE_TOKEN" = true ∧
    ("[Autoforge] Local model failed to load: " ++ cause)
      ∈ (hfInit tok mid env hasClient (.error cause)).2.logs := by
  refine ⟨by simp [hfInit, hno], by simp [hfInit, hno], ?_, ?_, by simp [hfInit, hno]⟩
  · refine strContains_of_decomp _ "Could not load local model \x27" _
      ("\x27.\nInstall it via:  transformers, accelerate, bitsandbytes\nOr set HUGGINGFACE_TOKEN for API fallback.") ?_
    simp [hfInitErrMsg, String.data_append, List.append_assoc]
  · refine strContains_of_decomp _
      ("Could not load local model \x27" ++ pyOrD mid LOCAL_MODEL ++
        "\x27.\nInstall it via:  transformers, accelerate, bitsandbytes\nOr set ")
      _ (" for API fallback.") ?_
    simp [hfInitErrMsg, String.data_append, List.append_assoc]

/-- Witness for the amended C2 theorem at a concrete input: no token, no
environment, remote client importable, local failure cause "EC2". -/
theorem hf_init_no_fallback_fatal_witness :
    (hfInit none none (fun _ => none) true (.error "EC2")).1
      = .error (.runtimeError (hfInitErrMsg LOCAL_MODEL)) ∧
    strContains (hfInitErrMsg LOCAL_MODEL) "HUGGINGFACE_TOKEN" = true ∧
    ("[Autoforge] Local model failed to load: EC2")
      ∈ (hfInit none none (fun _ => none) true (.error "EC2")).2.logs :=
  ⟨(hf_init_no_fallback_fatal none none (fun _ => none) true "EC2" rfl).1,
   (hf_init_no_fallback_fatal none none (fun _ => none) true "EC2" rfl).2.2.2.1,
   (hf_init_no_fallback_fatal none none (fun _ => none) true "EC2" rfl).2.2.2.2⟩

/-- Claim C3: the backend state is fixed at construction and fully
determines the path of every `generate_project` call.  A successful
local load yields the Local-Ready state (`local_pipeline` set, no
client); in that state no hosted capability is ever called and the
result is independent of the hosted oracles.  A failed local load with
a truthy token and remote-client capability completes without raising
in the Remote-Ready state (`client` set, no pipeline); in that state
the local pipeline is never called and the result is independent of the
local oracle. -/
theorem hf_state_fixed {α : Type} (tok mid : Option String) (env : PyEnv)
    (hasClient : Bool) (cause : String) (mp : String) (md : α)
    (lg lg2 : String → Except String String)
    (tg tg2 : String → Except String TGResp)
    (cc cc2 : List Msg → Except String String)
    (j : String → Except String JValue) :
    ((hfInit tok mid env hasClient (.ok ())).1
      = .ok { model_id := pyOrD mid LOCAL_MODEL,
              hf_token := pyOr tok (env "HUGGINGFACE_TOKEN"),
              local_pipeline := true, client := false }) ∧
    (∀ b : HFBackend, b.local_pipeline = true →
      (b.generate_project mp md lg tg cc j).2.tgCalls = [] ∧
      (b.generate_project mp md lg tg cc j).2.ccCalls = [] ∧
      b.generate_project mp md lg tg cc j = b.generate_project mp md lg tg2 cc2 j) ∧
    (pyTruthy (pyOr tok (env "HUGGINGFACE_TOKEN")) = true → hasClient = true →
      (hfInit tok mid env hasClient (.error cause)).1
        = .ok { model_id := pyOrD mid LOCAL_MODEL,
                hf_token := pyOr tok (env "HUGGINGFACE_TOKEN"),
                local_pipeline := false, client := true }) ∧
    (∀ b : HFBackend, b.local_pipeline = false →
      (b.generate_project mp md lg tg cc j).2.localCalls = [] ∧
      b.generate_project mp md lg tg cc j = b.generate_project mp md lg2 tg cc j) := by
  refine ⟨rfl, fun b hb => ?_, fun ht hc => by simp [hfInit, ht, hc], fun b hb => ?_⟩
  · unfold HFBackend.generate_project
    rw [hb]
    rcases hr : run_local mp lg with ⟨r, lc⟩
    cases r <;> simp
  · unfold HFBackend.generate_project
    rw [hb]
    rcases hr : run_hf mp tg cc with ⟨r, tgs, ccs⟩
    cases r <;> simp

/-- Witness for C3 at concrete inputs: a failing local load with token
"t" and client capability reaches Remote-Ready without raising, and a
Local-Ready backend ignores the hosted oracles. -/
theorem hf_state_fixed_witness :
    ((hfInit (some "t") none (fun _ => none) true (.error "boom")).1
      = .ok { model_id := LOCAL_MODEL, hf_token := some "t",
              local_pipeline := false, client := true }) ∧
    ((HFBackend.generate_project ⟨LOCAL_MODEL, none, true, false⟩ "p" (0 : Nat)
        (fun _ => .ok "\x7b\x7d") (fun _ => .error "x") (fun _ => .error "x")
        (fun _ => .ok (.jobj []))).2.tgCalls = []) :=
  ⟨(hf_state_fixed (some "t") none (fun _ => none) true "boom" "p" (0 : Nat)
      (fun _ => .ok "") (fun _ => .ok "") (fun _ => .error "x") (fun _ => .error "x")
      (fun _ => .error "x") (fun _ => .error "x") (fun _ => .ok (.jobj []))).2.2.1
      rfl rfl,
   ((hf_state_fixed (some "t") none (fun _ => none) true "boom" "p" (0 : Nat)
      (fun _ => .ok "\x7b\x7d") (fun _ => .ok "") (fun _ => .error "x") (fun _ => .error "x")
      (fun _ => .error "x") (fun _ => .error "x") (fun _ => .ok (.jobj []))).2.1
      ⟨LOCAL_MODEL, none, true, false⟩ rfl).1⟩

/-- Counterexample to claim C4: a Local-Ready HuggingFace backend (exactly as
produced by construction) whose raw output parses to the JSON array
`[]` returns that array successfully instead of failing — the uniform
object check and string coercion claimed for every backend do not hold
for the HuggingFace backend. -/
theorem hf_generate_nonobject_accepted :
    (hfInit none none (fun _ => none) true (.ok ())).1
      = .ok ⟨LOCAL_MODEL, none, true, false⟩ ∧
    (HFBackend.generate_project ⟨LOCAL_MODEL, none, true, false⟩ "p" (0 : Nat)
        (fun _ => .ok "[]") (fun _ => .error "x") (fun _ => .error "x")
        (fun _ => .ok (.jarr []))).1 = .ok (.jarr []) ∧
    isStrFileTree (.jarr []) = false :=
  ⟨rfl, rfl, rfl⟩

/-- Claim C4 (amended): the two backends enforce different output
contracts.  The OpenAI backend satisfies the claimed postcondition:
every successful return is an object with all values coerced to
strings, and a parsed non-object value is rejected with the
invalid-output error.  The HuggingFace backend returns the parsed JSON
value unchanged — no object check and no coercion — so its successes
are exactly the parse successes. -/
theorem output_contract_by_backend {α : Type} (ob : OpenAIBackend)
    (hb : HFBackend) (mp raw : String) (md : α)
    (chat : List Msg → Except String String)
    (lg : String → Except String String)
    (tg : String → Except String TGResp)
    (cc : List Msg → Except String String)
    (j : String → Except String JValue) :
    (∀ v, (ob.generate_project mp md chat j).1 = .ok v → isStrFileTree v = true) ∧
    (∀ v, chat [⟨"system", OPENAI_SYSTEM_MSG⟩, ⟨"user", mp⟩] = .ok raw →
      j raw = .ok v → isJObj v = false →
      (ob.generate_project mp md chat j).1
        = .error (.valueError "Expected JSON object mapping file paths to contents")) ∧
    (∀ v, hb.local_pipeline = true → lg mp = .ok raw → j raw = .ok v →
      (hb.generate_project mp md lg tg cc j).1 = .ok v) ∧
    (∀ r v, hb.local_pipeline = false → tg mp = .ok r →
      j (tgRespText r) = .ok v →
      (hb.generate_project mp md lg tg cc j).1 = .ok v) := by
  refine ⟨fun v hv => ?_, fun v hchat hj hobj => ?_, fun v hloc hlg hj => ?_,
    fun r v hloc htg hj => ?_⟩
  · dsimp only [OpenAIBackend.generate_project] at hv
    cases hc : chat [⟨"system", OPENAI_SYSTEM_MSG⟩, ⟨"user", mp⟩] with
    | error e => rw [hc] at hv; simp at hv
    | ok raw2 =>
      rw [hc] at hv
      dsimp only [] at hv
      cases hj : j raw2 with
      | error e => rw [hj] at hv; simp at hv
      | ok pv =>
        rw [hj] at hv
        cases pv <;> simp at hv
        subst hv
        simp [isStrFileTree, List.all_map, Function.comp]
  · dsimp only [OpenAIBackend.generate_project]
    rw [hchat]
    dsimp only []
    rw [hj]
    cases v <;> simp [isJObj] at hobj ⊢
  · unfold HFBackend.generate_project
    rw [hloc]
    simp [run_local, hlg, hfParse, hj]
  · unfold HFBackend.generate_project
    rw [hloc]
    simp [run_hf, htg, hfParse, hj]

/-- Witness for the amended C4 theorem: the OpenAI backend coerces a
mixed-type object to an all-string FileTree, and the HuggingFace
backend passes a parsed object through unchanged. -/
theorem output_contract_by_backend_witness :
    isStrFileTree (.jobj [("a", .jstr "b")]) = true ∧
    (HFBackend.generate_project ⟨LOCAL_MODEL, none, true, false⟩ "p" (0 : Nat)
        (fun _ => .ok "x") (fun _ => .error "x") (fun _ => .error "x")
        (fun _ => .ok (.jobj [("a", .jstr "b")]))).1 = .ok (.jobj [("a", .jstr "b")]) :=
  ⟨(output_contract_by_backend ⟨"k"⟩ ⟨LOCAL_MODEL, none, true, false⟩ "p" "x"
      (0 : Nat) (fun _ => .ok "x") (fun _ => .ok "x") (fun _ => .error "x")
      (fun _ => .error "x") (fun _ => .ok (.jobj [("a", .jstr "b")]))).1
      (.jobj [("a", .jstr "b")]) rfl,
   (output_contract_by_backend ⟨"k"⟩ ⟨LOCAL_MODEL, none, true, false⟩ "p" "x"
      (0 : Nat) (fun _ => .ok "x") (fun _ => .ok "x") (fun _ => .error "x")
      (fun _ => .error "x") (fun _ => .ok (.jobj [("a", .jstr "b")]))).2.2.1
      (.jobj [("a", .jstr "b")]) rfl rfl rfl⟩

/-- Claim C5: when the raw output is not valid JSON (the parse oracle
fails with message `e`), each backend fails with a typed `ValueError`
and never returns a tree.  The HuggingFace message carries `e` and the
first 400 characters of the raw output; the OpenAI message carries `e`
and the first 200 characters (within the claimed 400-character bound);
both messages are length-bounded by the parser message plus a constant,
never the full unbounded output. -/
theorem parse_failure_bounded {α : Type} (md : α) (mp raw e : String)
    (j : String → Except String JValue) (hj : j raw = .error e)
    (ob : OpenAIBackend) (hb : HFBackend)
    (chat : List Msg → Except String String)
    (lg : String → Except String String)
    (tg : String → Except String TGResp)
    (cc : List Msg → Except String String) :
    (hb.local_pipeline = true → lg mp = .ok raw →
      (hb.generate_project mp md lg tg cc j).1
        = .error (.valueError (hfParseErrMsg e raw))) ∧
    (chat [⟨"system", OPENAI_SYSTEM_MSG⟩, ⟨"user", mp⟩] = .ok raw →
      (ob.generate_project mp md chat j).1
        = .error (.valueError (openaiParseErrMsg e raw))) ∧
    strContains (hfParseErrMsg e raw) e = true ∧
    strContains (hfParseErrMsg e raw) (pySlice raw 400) = true ∧
    ((hfParseErrMsg e raw).length ≤ e.length + 460) ∧
    strContains (openaiParseErrMsg e raw) e = true ∧
    strContains (openaiParseErrMsg e raw) (pySlice raw 200) = true ∧
    ((openaiParseErrMsg e raw).length ≤ e.length + 250) := by
  refine ⟨fun hloc hlg => ?_, fun hchat => ?_, ?_, ?_, ?_, ?_, ?_, ?_⟩
  · unfold HFBackend.generate_project
    rw [hloc]
    simp [run_local, hlg, hfParse, hj]
  · dsimp only [OpenAIBackend.generate_project]
    rw [hchat]
    dsimp only []
    rw [hj]
  · refine strContains_of_decomp _ "Model did not return valid JSON.\nError: " _
      ("\n\nRaw output:\n" ++ pySlice raw 400 ++ "...") ?_
    simp [hfParseErrMsg, String.data_append, List.append_assoc]
  · refine strContains_of_decomp _
      ("Model did not return valid JSON.\nError: " ++ e ++ "\n\nRaw output:\n")
      _ "..." ?_
    simp [hfParseErrMsg, String.data_append, List.append_assoc]
  · have hs := pySlice_length_le raw 400
    simp only [hfParseErrMsg, String.length_append]
    have h1 : ("Model did not return valid JSON.\nError: " : String).length = 40 := rfl
    have h2 : ("\n\nRaw output:\n" : String).length = 14 := rfl
    have h3 : ("..." : String).length = 3 := rfl
    omega
  · refine strContains_of_decomp _ "OpenAI backend returned non-JSON output: " _
      (": " ++ pySlice raw 200) ?_
    simp [openaiParseErrMsg, String.data_append, List.append_assoc]
  · refine strContains_of_decomp _
      ("OpenAI backend returned non-JSON output: " ++ e ++ ": ") _ "" ?_
    simp [openaiParseErrMsg, String.data_append, List.append_assoc]
  · have hs := pySlice_length_le raw 200
    simp only [openaiParseErrMsg, String.length_append]
    have h1 : ("OpenAI backend returned non-JSON output: " : String).length = 41 := rfl
    have h2 : (": " : String).length = 2 := rfl
    omega

/-- Witness for C5 at a concrete invalid output: the HuggingFace
backend fails with the bounded message and the OpenAI message contains
the parser error. -/
theorem parse_failure_bounded_witness :
    (HFBackend.generate_project ⟨LOCAL_MODEL, none, true, false⟩ "p" (0 : Nat)
        (fun _ => .ok "oops") (fun _ => .error "x") (fun _ => .error "x")
        (fun _ => .error "Expecting value: line 1 column 1 (char 0)")).1
      = .error (.valueError
          (hfParseErrMsg "Expecting value: line 1 column 1 (char 0)" "oops")) ∧
    strContains (openaiParseErrMsg "Expecting value: line 1 column 1 (char 0)" "oops")
      "Expecting value: line 1 column 1 (char 0)" = true :=
  ⟨(parse_failure_bounded (0 : Nat) "p" "oops" "Expecting value: line 1 column 1 (char 0)"
      (fun _ => .error "Expecting value: line 1 column 1 (char 0)") rfl ⟨"k"⟩
      ⟨LOCAL_MODEL, none, true, false⟩ (fun _ => .ok "oops") (fun _ => .ok "oops")
      (fun _ => .error "x") (fun _ => .error "x")).1 rfl rfl,
   (parse_failure_bounded (0 : Nat) "p" "oops" "Expecting value: line 1 column 1 (char 0)"
      (fun _ => .error "Expecting value: line 1 column 1 (char 0)") rfl ⟨"k"⟩
      ⟨LOCAL_MODEL, none, true, false⟩ (fun _ => .ok "oops") (fun _ => .ok "oops")
      (fun _ => .error "x") (fun _ => .error "x")).2.2.2.2.2.1⟩

/-- Counterexample to claim C6: in Remote-Ready, when the text-generation call
fails with "ORIGINAL_TG_ERROR" and the chat-completion retry also
fails, the failure surfaced to the caller is the error of the retry, verbatim,
and its message does not contain the original text-generation error —
the original provider error is silently discarded, contrary to the
claim. -/
theorem hf_remote_first_error_lost :
    (HFBackend.generate_project ⟨LOCAL_MODEL, some "t", false, true⟩ "p" (0 : Nat)
        (fun _ => .error "local")
        (fun _ => .error "ORIGINAL_TG_ERROR")
        (fun _ => .error "chat failed too")
        (fun _ => .ok .jnull)).1
      = .error (.providerError "chat failed too") ∧
    strContains "chat failed too" "ORIGINAL_TG_ERROR" = false := by
  exact ⟨rfl, by decide⟩

/-- Claim C6 (amended): in the Remote-Ready state, when the hosted
text-generation call fails, exactly one retry is made through the
hosted chat-completion capability with the single equivalent user
message before failure is surfaced; the output of a successful retry goes
through normal parsing, and the error of a failed retry is surfaced verbatim
as the final failure — but the original text-generation error is
discarded, not preserved in the surfaced message. -/
theorem hf_remote_retry_once {α : Type} (hb : HFBackend) (mp : String) (md : α)
    (e1 : String)
    (lg : String → Except String String)
    (tg : String → Except String TGResp)
    (cc : List Msg → Except String String)
    (j : String → Except String JValue)
    (hloc : hb.local_pipeline = false)
    (htg : tg mp = .error e1) :
    ((hb.generate_project mp md lg tg cc j).2.ccCalls = [[⟨"user", mp⟩]]) ∧
    ((hb.generate_project mp md lg tg cc j).2.tgCalls = [mp]) ∧
    (∀ c, cc [⟨"user", mp⟩] = .ok c →
      (hb.generate_project mp md lg tg cc j).1 = hfParse j c) ∧
    (∀ e2, cc [⟨"user", mp⟩] = .error e2 →
      (hb.generate_project mp md lg tg cc j).1 = .error (.providerError e2)) := by
  refine ⟨?_, ?_, fun c hc => ?_, fun e2 hc => ?_⟩ <;>
    · unfold HFBackend.generate_project
      rw [hloc]
      simp only [run_hf, htg]
      first
      | (rw [hc]; cases hr : hfParse j c <;> simp [hr])
      | (rw [hc]; simp)
      | (cases hcc : cc [⟨"user", mp⟩] <;> simp)

/-- Witness for the amended C6 theorem: with a failing text-generation
call, the chat retry is attempted with exactly the one user message and
its failure is surfaced verbatim. -/
theorem hf_remote_retry_once_witness :
    ((HFBackend.generate_project ⟨LOCAL_MODEL, some "t", false, true⟩ "p" (0 : Nat)
        (fun _ => .error "local") (fun _ => .error "tg down")
        (fun _ => .error "cc down") (fun _ => .ok .jnull)).2.ccCalls
      = [[⟨"user", "p"⟩]]) ∧
    ((HFBackend.generate_project ⟨LOCAL_MODEL, some "t", false, true⟩ "p" (0 : Nat)
        (fun _ => .error "local") (fun _ => .error "tg down")
        (fun _ => .error "cc down") (fun _ => .ok .jnull)).1
      = .error (.providerError "cc down")) :=
  ⟨(hf_remote_retry_once ⟨LOCAL_MODEL, some "t", false, true⟩ "p" (0 : Nat) "tg down"
      (fun _ => .error "local") (fun _ => .error "tg down")
      (fun _ => .error "cc down") (fun _ => .ok .jnull) rfl rfl).1,
   (hf_remote_retry_once ⟨LOCAL_MODEL, some "t", false, true⟩ "p" (0 : Nat) "tg down"
      (fun _ => .error "local") (fun _ => .error "tg down")
      (fun _ => .error "cc down") (fun _ => .ok .jnull) rfl rfl).2.2.2
      "cc down" rfl⟩
